import Mathlib

/-!
Verification of the roboshop cart service (cart mutation and pricing engine).

The repository ships the Jest test suite (src/__tests__/setup.js) but the
server implementation (../server, i.e. server.js) is not under src/.  The
definitions below are therefore a shallow embedding of the cart engine
modelled from the specification (spec.md §3-§4), except where the test
suite under src/ pins concrete behaviour, in which case the test is the
authority.  Decimal amounts are modelled as rationals (ℚ); "rounded to
2 decimal places with standard rounding" is `round2` below.
-/

namespace RoboshopCart

/-- Round a rational to 2 decimal places with standard (half-up) rounding,
as the spec prescribes for subtotal and tax. -/
def round2 (q : ℚ) : ℚ := ((Rat.floor (q * 100 + 1/2) : ℤ) : ℚ) / 100

/-- A rational that is an exact 2-decimal-place amount (the spec's
"non-negative decimal, 2-decimal precision" prices and costs). -/
def TwoDP (q : ℚ) : Prop := ∃ z : ℤ, q = (z : ℚ) / 100

/-- Modelled from the spec: a line item of a cart
(`sku`, `name`, unit `price`, `qty`, `subtotal`). -/
structure LineItem where
  sku : String
  name : String
  price : ℚ
  qty : ℤ
  subtotal : ℚ
deriving Repr, DecidableEq

/-- Modelled from the spec: a cart record as persisted, with derived
`total` and `tax` fields alongside the line items. -/
structure Cart where
  total : ℚ
  tax : ℚ
  items : List LineItem
deriving Repr, DecidableEq

/-- Modelled from the spec: product info returned by the catalogue lookup. -/
structure ProductInfo where
  sku : String
  name : String
  price : ℚ
  instock : ℤ
deriving Repr, DecidableEq

/-- The catalogue client as a function from SKU to an optional product
(`none` models the catalogue reporting the SKU unknown). -/
abbrev Catalogue : Type := String → Option ProductInfo

/-- Modelled from the spec: the shipping payload `{distance, cost, location}`;
`Option` fields model possibly-missing JSON fields. -/
structure ShippingPayload where
  distance : Option ℚ
  cost : Option ℚ
  location : Option String
deriving Repr, DecidableEq

/-- Error kinds of the cart engine (spec §7). -/
inductive Err where
  | InvalidQuantity
  | NegativeQuantity
  | CartNotFound
  | ItemNotInCart
  | ShippingDataMissing
  | ProductNotFound
  | CatalogueUnavailable
  | MalformedRecord
deriving Repr, DecidableEq

instance : DecidableEq (Except Err Cart) := fun x y =>
  match x, y with
  | .error a, .error b =>
    if h : a = b then .isTrue (by rw [h]) else .isFalse (by simp [h])
  | .error _, .ok _ => .isFalse (by simp)
  | .ok _, .error _ => .isFalse (by simp)
  | .ok a, .ok b =>
    if h : a = b then .isTrue (by rw [h]) else .isFalse (by simp [h])

/-- The key-value store holding cart records, as an association list from
cart id to cart (first binding wins). -/
abbrev Store : Type := List (String × Cart)

/-- Load the record stored under a cart id. -/
def Store.get (s : Store) (id : String) : Option Cart :=
  match s with
  | [] => none
  | (k, c) :: rest => if k = id then some c else Store.get rest id

/-- Remove any record stored under a cart id. -/
def Store.del (s : Store) (id : String) : Store :=
  match s with
  | [] => []
  | (k, c) :: rest => if k = id then Store.del rest id else (k, c) :: Store.del rest id

/-- Write a record under a cart id, replacing any prior record. -/
def Store.put (s : Store) (id : String) (c : Cart) : Store :=
  (id, c) :: Store.del s id

/-- calcTotal, the source's helper summing the line-item subtotals
(test: calcTotal of subtotals 10, 20, 30 is 60 and calcTotal([]) = 0),
written as the fold the JS loop performs. -/
def calcTotal (items : List LineItem) : ℚ :=
  items.foldl (fun t it => t + it.subtotal) 0

/-- calcTax, the source's tax helper.  Modelled from the spec and the test:
the spec's sentence says total × 0.20, but the repository's own test
(src/__tests__/setup.js, "should calculate tax correctly at 20%") requires
calcTax(120.00) = 20.00, which is the 20% VAT contained in a tax-inclusive
total, total − total/1.2, not total × 0.20 (that would give 24).  Rounding
to 2 decimal places is kept from the spec. -/
def calcTax (total : ℚ) : ℚ := round2 (total - total / (6/5))

/-- The spec's own words for the tax function, for comparison with
`calcTax`: total × TAX_RATE with TAX_RATE = 0.20, rounded to 2 dp. -/
def computeTaxSpec (total : ℚ) : ℚ := round2 (total * (20/100))

/-- Modelled from the spec: computeSubtotal(price, qty) = price * qty,
rounded to 2 decimal places. -/
def computeSubtotal (price : ℚ) (qty : ℤ) : ℚ := round2 (price * (qty : ℚ))

/-- Rebuild the derived fields of a cart from its line items: total and tax
are recomputed from scratch on every mutation, never patched. -/
def recompute (items : List LineItem) : Cart :=
  { total := calcTotal items, tax := calcTax (calcTotal items), items := items }

/-- Modelled from the spec: merging an added quantity of a SKU into the item
list — the first line item whose sku matches has its qty incremented and its
price refreshed from the catalogue's product, otherwise a new line item is
appended. -/
def mergeItem (items : List LineItem) (sku : String) (p : ProductInfo) (qty : ℤ) :
    List LineItem :=
  match items with
  | [] => [{ sku := sku, name := p.name, price := p.price, qty := qty,
             subtotal := computeSubtotal p.price qty }]
  | it :: rest =>
    if it.sku = sku then
      { it with
        qty := it.qty + qty, price := p.price,
        subtotal := computeSubtotal p.price (it.qty + qty) } :: rest
    else it :: mergeItem rest sku p qty

/-- Modelled from the spec: the item-list part of UpdateItem.  `none` means
no line item for the sku exists; qty = 0 removes the line item entirely;
otherwise the qty is set absolutely and the subtotal recomputed. -/
def updateList (items : List LineItem) (sku : String) (qty : ℤ) :
    Option (List LineItem) :=
  match items with
  | [] => none
  | it :: rest =>
    if it.sku = sku then
      some (if qty = 0 then rest
            else { it with
                   qty := qty,
                   subtotal := computeSubtotal it.price qty } :: rest)
    else (updateList rest sku qty).map (fun l => it :: l)

/-- Modelled from the spec: GetCart — returns the stored record as-is, or
CartNotFound.  Its type returns no store: the operation is read-only. -/
def getCart (s : Store) (id : String) : Except Err Cart :=
  match Store.get s id with
  | none => .error .CartNotFound
  | some c => .ok c

/-- Modelled from the spec: AddItem(cartId, sku, qty).  Validates qty > 0
first, then looks up the catalogue, merges into the (possibly absent,
treated as empty) cart, recomputes totals and persists.  The returned store
is unchanged on every failure. -/
def addItem (cat : Catalogue) (s : Store) (id sku : String) (qty : ℤ) :
    Store × Except Err Cart :=
  if qty ≤ 0 then (s, .error .InvalidQuantity)
  else
    match cat sku with
    | none => (s, .error .ProductNotFound)
    | some p =>
      let cur := (Store.get s id).getD { total := 0, tax := 0, items := [] }
      let c := recompute (mergeItem cur.items sku p qty)
      (Store.put s id c, .ok c)

/-- Modelled from the spec: UpdateItem(cartId, sku, qty).  Validates
qty ≥ 0 before any I/O, then requires the cart and the line item to exist;
qty = 0 is a removal request.  The returned store is unchanged on failure. -/
def updateItem (s : Store) (id sku : String) (qty : ℤ) :
    Store × Except Err Cart :=
  if qty < 0 then (s, .error .NegativeQuantity)
  else
    match Store.get s id with
    | none => (s, .error .CartNotFound)
    | some cur =>
      match updateList cur.items sku qty with
      | none => (s, .error .ItemNotInCart)
      | some items =>
        let c := recompute items
        (Store.put s id c, .ok c)

/-- Modelled from the spec: AddShipping(cartId, payload).  Requires all of
distance, cost and location; represents shipping as a single line item with
sku "SHIP", replacing any prior SHIP entry, then recomputes and persists. -/
def addShipping (s : Store) (id : String) (pay : ShippingPayload) :
    Store × Except Err Cart :=
  match pay.distance, pay.cost, pay.location with
  | some _, some cost, some loc =>
    let cur := (Store.get s id).getD { total := 0, tax := 0, items := [] }
    let ship : LineItem :=
      { sku := "SHIP", name := "shipping to " ++ loc, price := cost, qty := 1,
        subtotal := computeSubtotal cost 1 }
    let c := recompute ((cur.items.filter (fun it => ¬ it.sku = "SHIP")) ++ [ship])
    (Store.put s id c, .ok c)
  | _, _, _ => (s, .error .ShippingDataMissing)

/-- Modelled from the spec: RenameCart(oldId, newId) — load-old, delete-old,
put-new, per the spec's fallback sequence; CartNotFound when oldId absent. -/
def renameCart (s : Store) (oldId newId : String) : Store × Except Err Cart :=
  match Store.get s oldId with
  | none => (s, .error .CartNotFound)
  | some c => (Store.put (Store.del s oldId) newId c, .ok c)

/-- A line item whose stored subtotal is its price times its qty. -/
def itemConsistent (it : LineItem) : Prop :=
  it.subtotal = it.price * (it.qty : ℚ)

/-- The persisted-cart invariant of the spec: total is the sum of the
line-item subtotals, tax is the tax function of the total, and every line
item's subtotal is price × qty. -/
def cartConsistent (c : Cart) : Prop :=
  c.total = (c.items.map LineItem.subtotal).sum ∧
  c.tax = round2 (c.total - c.total / (6/5)) ∧
  ∀ it ∈ c.items, itemConsistent it

/-- The catalogue matching the repository test's mock: every lookup of
"TEST-SKU" yields Test Product at price 10.00 with 100 in stock. -/
def cat0 : Catalogue := fun sku =>
  if sku = "TEST-SKU" then
    some { sku := "TEST-SKU", name := "Test Product", price := 10, instock := 100 }
  else none

lemma round2_eq (q : ℚ) : round2 q = ((⌊q * 100 + 1/2⌋ : ℤ) : ℚ) / 100 := by
  rw [round2, Rat.floor_def', ← Rat.floor_def]

lemma round2_twoDP {q : ℚ} (h : TwoDP q) : round2 q = q := by
  obtain ⟨z, rfl⟩ := h
  rw [round2_eq]
  have h100 : ((z : ℚ) / 100) * 100 = (z : ℚ) := by field_simp
  have hhalf : ⌊(1/2 : ℚ)⌋ = 0 := by norm_num [Rat.floor_def]
  rw [h100, Int.floor_int_add, hhalf, add_zero]

lemma TwoDP.mul_int {q : ℚ} (h : TwoDP q) (n : ℤ) : TwoDP (q * (n : ℚ)) := by
  obtain ⟨z, rfl⟩ := h
  exact ⟨z * n, by push_cast; ring⟩

lemma computeSubtotal_twoDP {price : ℚ} (h : TwoDP price) (qty : ℤ) :
    computeSubtotal price qty = price * (qty : ℚ) :=
  round2_twoDP (h.mul_int qty)

lemma foldl_add_subtotal (l : List LineItem) (a : ℚ) :
    l.foldl (fun t it => t + it.subtotal) a = a + (l.map LineItem.subtotal).sum := by
  induction l generalizing a with
  | nil => simp
  | cons x xs ih => simp [List.foldl_cons, ih, add_assoc]

lemma calcTotal_eq_sum (items : List LineItem) :
    calcTotal items = (items.map LineItem.subtotal).sum := by
  rw [calcTotal, foldl_add_subtotal, zero_add]

lemma Store.get_put_self (s : Store) (id : String) (c : Cart) :
    Store.get (Store.put s id c) id = some c := by
  simp [Store.put, Store.get]

lemma Store.get_del_self (s : Store) (id : String) :
    Store.get (Store.del s id) id = none := by
  induction s with
  | nil => rfl
  | cons kv rest ih =>
    obtain ⟨k, c⟩ := kv
    by_cases hk : k = id
    · simp [Store.del, hk, ih]
    · simp [Store.del, Store.get, hk, ih]

lemma Store.get_del_ne (s : Store) {id id' : String} (h : id' ≠ id) :
    Store.get (Store.del s id) id' = Store.get s id' := by
  induction s with
  | nil => rfl
  | cons kv rest ih =>
    obtain ⟨k, c⟩ := kv
    show Store.get (if k = id then Store.del rest id else (k, c) :: Store.del rest id) id'
        = if k = id' then some c else Store.get rest id'
    by_cases hk : k = id
    · rw [if_pos hk, ih, if_neg fun hh => h (hh.symm.trans hk)]
    · rw [if_neg hk]
      show (if k = id' then some c else Store.get (Store.del rest id) id')
          = if k = id' then some c else Store.get rest id'
      rw [ih]

lemma Store.get_put_ne (s : Store) {id id' : String} (h : id' ≠ id) (c : Cart) :
    Store.get (Store.put s id c) id' = Store.get s id' := by
  rw [Store.put]
  show (if id = id' then some c else Store.get (Store.del s id) id') = _
  rw [if_neg fun hh => h hh.symm, Store.get_del_ne s h]

lemma mergeItem_consistent {sku : String} {p : ProductInfo} {qty : ℤ}
    (hp : TwoDP p.price) :
    ∀ items : List LineItem, (∀ it ∈ items, itemConsistent it ∧ TwoDP it.price) →
      ∀ it ∈ mergeItem items sku p qty, itemConsistent it ∧ TwoDP it.price := by
  intro items
  induction items with
  | nil =>
    intro _ it hit
    simp only [mergeItem, List.mem_singleton] at hit
    subst hit
    exact ⟨by simp [itemConsistent, computeSubtotal_twoDP hp], hp⟩
  | cons x xs ih =>
    intro hall it hit
    rw [mergeItem] at hit
    by_cases hx : x.sku = sku
    · rw [if_pos hx] at hit
      rcases List.mem_cons.mp hit with h | h
      · subst h
        exact ⟨by simp [itemConsistent, computeSubtotal_twoDP hp], hp⟩
      · exact hall it (List.mem_cons_of_mem _ h)
    · rw [if_neg hx] at hit
      rcases List.mem_cons.mp hit with h | h
      · subst h
        exact hall it (List.mem_cons_self _ _)
      · exact ih (fun a ha => hall a (List.mem_cons_of_mem _ ha)) it h

lemma updateList_consistent {sku : String} {qty : ℤ} :
    ∀ items items' : List LineItem, updateList items sku qty = some items' →
      (∀ it ∈ items, itemConsistent it ∧ TwoDP it.price) →
      ∀ it ∈ items', itemConsistent it ∧ TwoDP it.price := by
  intro items
  induction items with
  | nil =>
    intro items' h
    simp [updateList] at h
  | cons x xs ih =>
    intro items' h hall
    rw [updateList] at h
    by_cases hx : x.sku = sku
    · rw [if_pos hx] at h
      injection h with h
      subst h
      by_cases hq : qty = 0
      · rw [if_pos hq]
        intro it hit
        exact hall it (List.mem_cons_of_mem _ hit)
      · rw [if_neg hq]
        intro it hit
        rcases List.mem_cons.mp hit with hh | hh
        · subst hh
          have hx2 := hall x (List.mem_cons_self _ _)
          exact ⟨by simp [itemConsistent, computeSubtotal_twoDP hx2.2], hx2.2⟩
        · exact hall it (List.mem_cons_of_mem _ hh)
    · rw [if_neg hx] at h
      rcases Option.map_eq_some'.mp h with ⟨l, hl, hcons⟩
      subst hcons
      intro it hit
      rcases List.mem_cons.mp hit with hh | hh
      · subst hh
        exact hall it (List.mem_cons_self _ _)
      · exact ih l hl (fun a ha => hall a (List.mem_cons_of_mem _ ha)) it hh

lemma addItem_ok {cat : Catalogue} {s : Store} {id sku : String} {qty : ℤ}
    {p : ProductInfo} (hq : 0 < qty) (hp : cat sku = some p) :
    addItem cat s id sku qty =
      (Store.put s id (recompute (mergeItem ((Store.get s id).getD
          { total := 0, tax := 0, items := [] }).items sku p qty)),
       .ok (recompute (mergeItem ((Store.get s id).getD
          { total := 0, tax := 0, items := [] }).items sku p qty))) := by
  rw [addItem, if_neg (not_le.mpr hq), hp]

lemma updateItem_ok {s : Store} {id sku : String} {qty : ℤ} {cur : Cart}
    {items : List LineItem} (hq : ¬ qty < 0) (hcur : Store.get s id = some cur)
    (hupd : updateList cur.items sku qty = some items) :
    updateItem s id sku qty =
      (Store.put s id (recompute items), .ok (recompute items)) := by
  rw [updateItem, if_neg hq, hcur]
  show (match updateList cur.items sku qty with
        | none => (s, Except.error Err.ItemNotInCart)
        | some items => (Store.put s id (recompute items), Except.ok (recompute items))) =
      (Store.put s id (recompute items), Except.ok (recompute items))
  rw [hupd]

lemma addShipping_ok (s : Store) (id : String) (d cost : ℚ) (loc : String) :
    addShipping s id { distance := some d, cost := some cost, location := some loc } =
      (Store.put s id (recompute ((((Store.get s id).getD
          { total := 0, tax := 0, items := [] }).items.filter
          (fun it => ¬ it.sku = "SHIP")) ++
        [{ sku := "SHIP", name := "shipping to " ++ loc, price := cost, qty := 1,
           subtotal := computeSubtotal cost 1 }])),
       .ok (recompute ((((Store.get s id).getD
          { total := 0, tax := 0, items := [] }).items.filter
          (fun it => ¬ it.sku = "SHIP")) ++
        [{ sku := "SHIP", name := "shipping to " ++ loc, price := cost, qty := 1,
           subtotal := computeSubtotal cost 1 }]))) := rfl

lemma filter_sku_of_filter_not (l : List LineItem) (sku : String) :
    (l.filter (fun it => ¬ it.sku = sku)).filter (fun it => it.sku = sku) = [] := by
  induction l with
  | nil => rfl
  | cons x xs ih => by_cases h : x.sku = sku <;> simp [List.filter_cons, h, ih]

lemma length_filter_sku (sku : String) (l : List LineItem) :
    (l.filter (fun it => it.sku = sku)).length
      + (l.filter (fun it => ¬ it.sku = sku)).length = l.length := by
  induction l with
  | nil => rfl
  | cons x xs ih =>
    rw [List.filter_cons, List.filter_cons]
    by_cases h : x.sku = sku
    · rw [if_pos (by simp [h]), if_neg (by simp [h])]
      simp only [List.length_cons]
      omega
    · rw [if_neg (by simp [h]), if_pos (by simp [h])]
      simp only [List.length_cons]
      omega

lemma updateList_zero_eq (sku : String) :
    ∀ l : List LineItem, (l.filter (fun it => it.sku = sku)).length = 1 →
      updateList l sku 0 = some (l.filter (fun it => ¬ it.sku = sku)) := by
  intro l
  induction l with
  | nil => intro h; simp at h
  | cons x xs ih =>
    intro h
    by_cases hx : x.sku = sku
    · have hnil : xs.filter (fun it => it.sku = sku) = [] := by
        rw [List.filter_cons, if_pos (by simp [hx])] at h
        simpa using h
      have hxs : ∀ it ∈ xs, ¬ it.sku = sku := by
        intro it hit hsk
        have hm : it ∈ xs.filter (fun it => it.sku = sku) :=
          List.mem_filter.mpr ⟨hit, by simp [hsk]⟩
        rw [hnil] at hm
        exact absurd hm (List.not_mem_nil it)
      rw [updateList, if_pos hx, if_pos rfl]
      congr 1
      rw [List.filter_cons, if_neg (by simp [hx])]
      exact (List.filter_eq_self.mpr (by intro a ha; simpa using hxs a ha)).symm
    · have h' : (xs.filter (fun it => it.sku = sku)).length = 1 := by
        rw [List.filter_cons, if_neg (by simp [hx])] at h
        exact h
      rw [updateList, if_neg hx, ih h']
      rw [List.filter_cons, if_pos (by simp [hx])]
      rfl

lemma mergeItem_of_absent (sku : String) (p : ProductInfo) (qty : ℤ) :
    ∀ items : List LineItem, (∀ it ∈ items, ¬ it.sku = sku) →
      mergeItem items sku p qty =
        items ++ [{ sku := sku, name := p.name, price := p.price, qty := qty,
                    subtotal := computeSubtotal p.price qty }] := by
  intro items
  induction items with
  | nil => intro _; rfl
  | cons x xs ih =>
    intro hall
    rw [mergeItem, if_neg (hall x (List.mem_cons_self _ _)),
      ih (fun a ha => hall a (List.mem_cons_of_mem _ ha))]
    rfl

lemma mergeItem_append_found (sku : String) (p : ProductInfo) (qty : ℤ)
    (a : LineItem) (ha : a.sku = sku) :
    ∀ items : List LineItem, (∀ it ∈ items, ¬ it.sku = sku) →
      mergeItem (items ++ [a]) sku p qty =
        items ++ [{ a with
                    qty := a.qty + qty, price := p.price,
                    subtotal := computeSubtotal p.price (a.qty + qty) }] := by
  intro items
  induction items with
  | nil =>
    intro _
    show mergeItem (a :: []) sku p qty = _
    rw [mergeItem, if_pos ha]
    rfl
  | cons x xs ih =>
    intro hall
    show mergeItem (x :: (xs ++ [a])) sku p qty = _
    rw [mergeItem, if_neg (hall x (List.mem_cons_self _ _)),
      ih (fun b hb => hall b (List.mem_cons_of_mem _ hb))]
    rfl

lemma recompute_items (l : List LineItem) : (recompute l).items = l := rfl

lemma recompute_total (l : List LineItem) : (recompute l).total = calcTotal l := rfl

lemma recompute_tax (l : List LineItem) :
    (recompute l).tax = calcTax (calcTotal l) := rfl

lemma recompute_consistent {l : List LineItem}
    (h : ∀ it ∈ l, itemConsistent it) : cartConsistent (recompute l) := by
  refine ⟨?_, rfl, ?_⟩
  · rw [recompute_total, recompute_items, calcTotal_eq_sum]
  · rw [recompute_items]
    exact h

lemma filter_sku_eq_nil {sk : String} :
    ∀ l : List LineItem, (∀ it ∈ l, ¬ it.sku = sk) →
      l.filter (fun it => it.sku = sk) = [] := by
  intro l
  induction l with
  | nil => intro _; rfl
  | cons x xs ih =>
    intro hall
    rw [List.filter_cons, if_neg (by simp [hall x (List.mem_cons_self _ _)])]
    exact ih fun a ha => hall a (List.mem_cons_of_mem _ ha)

/-- The cart produced by the repository test's add scenario: 2 × TEST-SKU at
catalogue price 10.00 (total 20, tax as the code computes it). -/
def cartA : Cart :=
  { total := 20, tax := 333/100,
    items := [{ sku := "TEST-SKU", name := "Test Product", price := 10, qty := 2,
                subtotal := 20 }] }

/-- C2: computeTotal of every sequence of line items equals the arithmetic
sum of the items' subtotal values, and computeTotal of the empty sequence is
0; calcTotal is a total function (a pure fold) with no failure modes. -/
theorem calcTotal_is_sum_of_subtotals :
    (∀ items : List LineItem, calcTotal items = (items.map LineItem.subtotal).sum) ∧
    calcTotal [] = 0 :=
  ⟨calcTotal_eq_sum, rfl⟩

/-- C3 counterexample: the claim says computeTax(T) = round(T × 0.20, 2),
but the code's calcTax must map 120.00 to 20.00 (the repository test
"should calculate tax correctly at 20%" asserts it), while the claim's
formula gives 24 at T = 120. -/
theorem calcTax_flat_rate_counterexample :
    calcTax 120 = 20 ∧ computeTaxSpec 120 = 24 ∧ calcTax 120 ≠ computeTaxSpec 120 := by
  refine ⟨?_, ?_, ?_⟩ <;>
    norm_num [calcTax, computeTaxSpec, round2, Rat.floor_def']

/-- C3 amended: for every total T ≥ 0, calcTax(T) = round2(T − T/1.2) — the
20% tax contained in a tax-inclusive total, equivalently round2(T/6) — the
result is non-negative, and calcTax(0) = 0. -/
theorem calcTax_vat_extraction (T : ℚ) (hT : 0 ≤ T) :
    calcTax T = round2 (T - T / (6/5)) ∧ calcTax T = round2 (T / 6) ∧
    0 ≤ calcTax T ∧ calcTax 0 = 0 := by
  refine ⟨rfl, ?_, ?_, by norm_num [calcTax, round2, Rat.floor_def']⟩
  · rw [calcTax]
    congr 1
    ring
  · rw [calcTax, round2_eq]
    have hz : (0:ℤ) ≤ ⌊(T - T / (6/5)) * 100 + 1/2⌋ := by
      apply Int.le_floor.mpr
      have h6 : (T - T / (6/5)) * 100 = T * (50/3) := by ring
      rw [h6]
      push_cast
      nlinarith
    exact div_nonneg (by exact_mod_cast hz) (by norm_num)

/-- Witness for C3's amended theorem at T = 120. -/
theorem calcTax_vat_extraction_witness :
    (0:ℚ) ≤ 120 ∧
    (calcTax 120 = round2 (120 - 120 / (6/5)) ∧ calcTax 120 = round2 (120 / 6) ∧
     0 ≤ calcTax 120 ∧ calcTax 0 = 0) :=
  ⟨by norm_num, calcTax_vat_extraction 120 (by norm_num)⟩

/-- C6: UpdateItem with a negative quantity fails with NegativeQuantity and
leaves the store unchanged.  The equation holds for every store — including
stores holding no cart at the id at all — reflecting that the validation is
performed before any store I/O. -/
theorem updateItem_negative_rejected (s : Store) (id sku : String) (qty : ℤ)
    (h : qty < 0) :
    updateItem s id sku qty = (s, .error .NegativeQuantity) := by
  rw [updateItem, if_pos h]

/-- Witness for C6 at qty = −1 on an empty store. -/
theorem updateItem_negative_rejected_witness :
    (-1 : ℤ) < 0 ∧ updateItem [] "c1" "SKU1" (-1) = ([], .error .NegativeQuantity) :=
  ⟨by norm_num, updateItem_negative_rejected [] "c1" "SKU1" (-1) (by norm_num)⟩

/-- C9: AddItem with a positive quantity for a SKU the catalogue does not
know fails with ProductNotFound and returns the store unchanged — no
partial line item and no partially computed totals are persisted. -/
theorem addItem_unknown_sku_rejected (cat : Catalogue) (s : Store)
    (id sku : String) (qty : ℤ) (hq : 0 < qty) (hn : cat sku = none) :
    addItem cat s id sku qty = (s, .error .ProductNotFound) := by
  rw [addItem, if_neg (not_le.mpr hq), hn]

/-- Witness for C9: the test catalogue has no "UNKNOWN" SKU. -/
theorem addItem_unknown_sku_rejected_witness :
    (0:ℤ) < 1 ∧ cat0 "UNKNOWN" = none ∧
    addItem cat0 [("c1", cartA)] "c1" "UNKNOWN" 1 =
      ([("c1", cartA)], .error .ProductNotFound) :=
  ⟨by norm_num, by simp [cat0],
   addItem_unknown_sku_rejected cat0 [("c1", cartA)] "c1" "UNKNOWN" 1
     (by norm_num) (by simp [cat0])⟩

/-- A stored cart whose total field disagrees with its items, to exhibit
that GetCart does not repair stored data. -/
def cartBad : Cart :=
  { total := 999, tax := 0,
    items := [{ sku := "TEST-SKU", name := "Test Product", price := 10, qty := 2,
                subtotal := 20 }] }

/-- C10: GetCart on an existing cart returns the stored record verbatim —
whatever total, tax and items are stored — and is read-only: its type
`Store → String → Except Err Cart` returns no store, so no write-back can
occur. -/
theorem getCart_verbatim (s : Store) (id : String) (c : Cart)
    (h : Store.get s id = some c) : getCart s id = .ok c := by
  rw [getCart, h]

/-- Witness for C10 on a stored cart whose total is inconsistent with its
items: it is returned as-is, not repaired. -/
theorem getCart_verbatim_witness :
    Store.get [("c9", cartBad)] "c9" = some cartBad ∧
    getCart [("c9", cartBad)] "c9" = .ok cartBad ∧
    cartBad.total ≠ (cartBad.items.map LineItem.subtotal).sum :=
  ⟨by simp [Store.get], getCart_verbatim _ _ _ (by simp [Store.get]),
   by norm_num [cartBad]⟩

/-- A small stored cart used by the rename scenarios. -/
def cartC1 : Cart :=
  { total := 10, tax := 167/100,
    items := [{ sku := "SKU1", name := "Thing One", price := 10, qty := 1,
                subtotal := 10 }] }

/-- C7 counterexample: with oldId = newId = "c1" the rename succeeds (the
cart exists at oldId), yet GetCart(oldId) afterwards returns the cart, not
CartNotFound — the claim's two requirements are contradictory at
oldId = newId, and the spec's load-old, delete-old, put-new sequence leaves
the record in place. -/
theorem renameCart_same_id_counterexample :
    renameCart [("c1", cartC1)] "c1" "c1" = ([("c1", cartC1)], .ok cartC1) ∧
    getCart (renameCart [("c1", cartC1)] "c1" "c1").1 "c1" = .ok cartC1 ∧
    getCart (renameCart [("c1", cartC1)] "c1" "c1").1 "c1" ≠
      .error Err.CartNotFound := by
  refine ⟨?_, ?_, ?_⟩ <;>
    simp [renameCart, getCart, Store.get, Store.put, Store.del]

/-- C7 amended: for distinct ids, renaming a cart that exists at oldId
succeeds, afterwards GetCart(oldId) fails with CartNotFound while
GetCart(newId) returns the original content (overwriting, without merge,
any cart previously at newId — the store s is arbitrary, including stores
already holding a record at newId); if oldId does not exist, RenameCart
fails with CartNotFound and the store is unchanged. -/
theorem renameCart_moves_content (s : Store) (oldId newId : String)
    (h : oldId ≠ newId) :
    (∀ c, Store.get s oldId = some c →
      ∃ s', renameCart s oldId newId = (s', .ok c) ∧
        getCart s' oldId = .error .CartNotFound ∧
        getCart s' newId = .ok c) ∧
    (Store.get s oldId = none →
      renameCart s oldId newId = (s, .error .CartNotFound)) := by
  constructor
  · intro c hc
    refine ⟨Store.put (Store.del s oldId) newId c, ?_, ?_, ?_⟩
    · rw [renameCart, hc]
    · rw [getCart, Store.get_put_ne _ h, Store.get_del_self]
    · rw [getCart, Store.get_put_self]
  · intro hn
    rw [renameCart, hn]

/-- Witness for C7's amended theorem: renaming "c1" (containing cartC1) to
"c2" over a store that already holds a different cart at "c2". -/
theorem renameCart_moves_content_witness :
    "c1" ≠ "c2" ∧
    Store.get [("c1", cartC1), ("c2", cartBad)] "c1" = some cartC1 ∧
    (∃ s', renameCart [("c1", cartC1), ("c2", cartBad)] "c1" "c2" = (s', .ok cartC1) ∧
      getCart s' "c1" = .error .CartNotFound ∧
      getCart s' "c2" = .ok cartC1) :=
  ⟨by simp, by simp [Store.get],
   (renameCart_moves_content [("c1", cartC1), ("c2", cartBad)] "c1" "c2"
     (by simp)).1 cartC1 (by simp [Store.get])⟩

/-- C8: AddShipping with a complete payload stores a single shipping line
item — sku "SHIP", name "shipping to " + location, price = cost, qty = 1,
subtotal = cost — and the persisted cart's items contain exactly one SHIP
entry whatever the prior store held (so re-adding shipping replaces the
previous SHIP line item instead of accumulating a second one). -/
theorem addShipping_single_ship_item (s : Store) (id : String) (d cost : ℚ)
    (loc : String) (hc : TwoDP cost) :
    ∃ s' c, addShipping s id
        { distance := some d, cost := some cost, location := some loc } = (s', .ok c) ∧
      Store.get s' id = some c ∧
      c.items.filter (fun it => it.sku = "SHIP") =
        [{ sku := "SHIP", name := "shipping to " ++ loc, price := cost, qty := 1,
           subtotal := cost }] := by
  rw [addShipping_ok]
  refine ⟨_, _, rfl, Store.get_put_self _ _ _, ?_⟩
  rw [recompute_items, List.filter_append, filter_sku_of_filter_not,
    List.nil_append, computeSubtotal_twoDP hc]
  simp

/-- Witness for C8: re-adding shipping on a cart that already holds a SHIP
line item yields exactly the one new SHIP entry. -/
theorem addShipping_single_ship_item_witness :
    TwoDP 5 ∧
    (∃ s' c, addShipping
        [("c1", { total := 3, tax := 1/2,
                  items := [{ sku := "SHIP", name := "shipping to Old", price := 3,
                              qty := 1, subtotal := 3 }] })] "c1"
        { distance := some 10, cost := some 5, location := some "Test Location" }
        = (s', .ok c) ∧
      Store.get s' "c1" = some c ∧
      c.items.filter (fun it => it.sku = "SHIP") =
        [{ sku := "SHIP", name := "shipping to " ++ "Test Location", price := 5,
           qty := 1, subtotal := 5 }]) :=
  ⟨⟨500, by norm_num⟩,
   addShipping_single_ship_item _ "c1" 10 5 "Test Location" ⟨500, by norm_num⟩⟩

/-- A two-item cart used by the update-removal scenario. -/
def cartD : Cart :=
  { total := 30, tax := 5,
    items := [{ sku := "SKU1", name := "Thing One", price := 10, qty := 2,
                subtotal := 20 },
              { sku := "SKU2", name := "Thing Two", price := 5, qty := 2,
                subtotal := 10 }] }

/-- C5: UpdateItem with qty = 0 on a cart holding a line item for the sku
removes that line item entirely — no qty-0 line item is stored, the item
count decreases by exactly one, and total and tax are recomputed over the
remaining items — and persists the result. -/
theorem updateItem_zero_removes (s : Store) (id sku : String) (c : Cart)
    (hget : Store.get s id = some c)
    (hone : (c.items.filter (fun it => it.sku = sku)).length = 1) :
    ∃ s' c', updateItem s id sku 0 = (s', .ok c') ∧
      Store.get s' id = some c' ∧
      c'.items = c.items.filter (fun it => ¬ it.sku = sku) ∧
      c'.items.length + 1 = c.items.length ∧
      (∀ it ∈ c'.items, ¬ it.sku = sku) ∧
      c'.total = (c'.items.map LineItem.subtotal).sum ∧
      c'.tax = calcTax c'.total := by
  have hupd := updateList_zero_eq sku c.items hone
  have heq := updateItem_ok (by norm_num) hget hupd
  refine ⟨_, _, heq, Store.get_put_self _ _ _, recompute_items _, ?_, ?_, ?_, ?_⟩
  · rw [recompute_items]
    have := length_filter_sku sku c.items
    omega
  · intro it hit
    rw [recompute_items] at hit
    have hm := List.mem_filter.mp hit
    simpa using hm.2
  · rw [recompute_total, recompute_items, calcTotal_eq_sum]
  · rw [recompute_tax, recompute_total]

/-- Witness for C5: removing SKU1 from the two-item cartD. -/
theorem updateItem_zero_removes_witness :
    Store.get [("c1", cartD)] "c1" = some cartD ∧
    (cartD.items.filter (fun it => it.sku = "SKU1")).length = 1 ∧
    (∃ s' c', updateItem [("c1", cartD)] "c1" "SKU1" 0 = (s', .ok c') ∧
      Store.get s' "c1" = some c' ∧
      c'.items = cartD.items.filter (fun it => ¬ it.sku = "SKU1") ∧
      c'.items.length + 1 = cartD.items.length ∧
      (∀ it ∈ c'.items, ¬ it.sku = "SKU1") ∧
      c'.total = (c'.items.map LineItem.subtotal).sum ∧
      c'.tax = calcTax c'.total) :=
  ⟨by simp [Store.get], by simp [cartD],
   updateItem_zero_removes [("c1", cartD)] "c1" "SKU1" cartD
     (by simp [Store.get]) (by simp [cartD])⟩

/-- C4: adding the same SKU twice with positive quantities q1 and q2 (to a
cart with no prior line item for that SKU) yields a cart with exactly one
line item for the SKU, qty = q1 + q2, unit price as returned by the
catalogue at the time of the second call (cat2 may price the SKU
differently from cat1 — the price is refreshed, not frozen at first add),
and subtotal = that price × (q1 + q2). -/
theorem addItem_twice_merges_qty (cat1 cat2 : Catalogue) (s : Store)
    (id sku : String) (q1 q2 : ℤ) (p1 p2 : ProductInfo)
    (hq1 : 0 < q1) (hq2 : 0 < q2)
    (h1 : cat1 sku = some p1) (h2 : cat2 sku = some p2) (hp2 : TwoDP p2.price)
    (hs : ∀ c, Store.get s id = some c → ∀ it ∈ c.items, ¬ it.sku = sku) :
    ∃ c2, (addItem cat2 (addItem cat1 s id sku q1).1 id sku q2).2 = .ok c2 ∧
      c2.items.filter (fun it => it.sku = sku) =
        [{ sku := sku, name := p1.name, price := p2.price, qty := q1 + q2,
           subtotal := p2.price * ((q1 + q2 : ℤ) : ℚ) }] := by
  have hitems0 : ∀ it ∈ ((Store.get s id).getD
      { total := 0, tax := 0, items := [] }).items, ¬ it.sku = sku := by
    cases hg : Store.get s id with
    | none => simp
    | some c0 => simpa using hs c0 hg
  rw [addItem_ok hq1 h1, mergeItem_of_absent sku p1 q1 _ hitems0]
  dsimp only
  rw [addItem_ok hq2 h2, Store.get_put_self]
  dsimp only [Option.getD_some]
  rw [recompute_items,
    mergeItem_append_found sku p2 q2 _ rfl _ hitems0]
  dsimp only
  refine ⟨_, rfl, ?_⟩
  rw [recompute_items, List.filter_append, filter_sku_eq_nil _ hitems0,
    List.nil_append, computeSubtotal_twoDP hp2]
  simp

/-- The second-call catalogue for the C4 witness: same SKU, price now 12. -/
def catB : Catalogue := fun sku =>
  if sku = "TEST-SKU" then
    some { sku := "TEST-SKU", name := "Test Product", price := 12, instock := 100 }
  else none

/-- Witness for C4: add 2 then 3 of TEST-SKU, with the catalogue price
moving from 10 to 12 between the calls. -/
theorem addItem_twice_merges_qty_witness :
    (0:ℤ) < 2 ∧ (0:ℤ) < 3 ∧ cat0 "TEST-SKU" =
      some { sku := "TEST-SKU", name := "Test Product", price := 10, instock := 100 } ∧
    catB "TEST-SKU" =
      some { sku := "TEST-SKU", name := "Test Product", price := 12, instock := 100 } ∧
    (∃ c2, (addItem catB (addItem cat0 [] "c1" "TEST-SKU" 2).1 "c1" "TEST-SKU" 3).2
        = .ok c2 ∧
      c2.items.filter (fun it => it.sku = "TEST-SKU") =
        [{ sku := "TEST-SKU", name := "Test Product", price := 12, qty := 2 + 3,
           subtotal := 12 * ((2 + 3 : ℤ) : ℚ) }]) :=
  ⟨by norm_num, by norm_num, by simp [cat0], by simp [catB],
   addItem_twice_merges_qty cat0 catB [] "c1" "TEST-SKU" 2 3
     { sku := "TEST-SKU", name := "Test Product", price := 10, instock := 100 }
     { sku := "TEST-SKU", name := "Test Product", price := 12, instock := 100 }
     (by norm_num) (by norm_num) (by simp [cat0]) (by simp [catB])
     ⟨1200, by norm_num⟩ (by intro c hc; simp [Store.get] at hc)⟩

/-- C1 counterexample: a successful AddItem (the repository test's own
scenario, 2 × TEST-SKU at price 10.00) persists a cart with total 20 and
tax 3.33 — the code's calcTax — whereas the claim requires
tax = round2(total × 0.20) = 4.00. -/
theorem mutation_tax_counterexample :
    addItem cat0 [] "c1" "TEST-SKU" 2 = ([("c1", cartA)], .ok cartA) ∧
    cartA.tax ≠ computeTaxSpec cartA.total := by
  constructor
  · norm_num [addItem, cat0, Store.get, Store.put, Store.del, mergeItem, recompute,
      calcTotal, calcTax, computeSubtotal, round2, Rat.floor_def', cartA]
  · norm_num [cartA, computeTaxSpec, round2, Rat.floor_def']

/-- C1 amended: after every successful mutation (AddItem, UpdateItem,
AddShipping) on a store whose prior cart at the id has consistent line
items (subtotal = price × qty, 2-dp prices), the persisted cart — stored
under the id and equal to the returned cart — satisfies `cartConsistent`:
total is the sum of all line-item subtotal values, tax is
round2(total − total/1.2) (the code's 20%-VAT extraction, not the claim's
total × 0.20), and every line item's subtotal is its price times its qty.
Total and tax are recomputed from scratch by `recompute` on every
mutation: the hypothesis constrains only the prior items, never the prior
total or tax fields, so stale stored totals are never patched forward. -/
theorem mutation_preserves_consistency (s : Store) (id : String)
    (hprior : ∀ c, Store.get s id = some c →
      ∀ it ∈ c.items, itemConsistent it ∧ TwoDP it.price) :
    (∀ (cat : Catalogue) (sku : String) (qty : ℤ) (p : ProductInfo)
        (s' : Store) (c : Cart), cat sku = some p → TwoDP p.price →
        addItem cat s id sku qty = (s', .ok c) →
        Store.get s' id = some c ∧ cartConsistent c) ∧
    (∀ (sku : String) (qty : ℤ) (s' : Store) (c : Cart),
        updateItem s id sku qty = (s', .ok c) →
        Store.get s' id = some c ∧ cartConsistent c) ∧
    (∀ (pay : ShippingPayload) (s' : Store) (c : Cart),
        (∀ cost, pay.cost = some cost → TwoDP cost) →
        addShipping s id pay = (s', .ok c) →
        Store.get s' id = some c ∧ cartConsistent c) := by
  have hcur : ∀ it ∈ ((Store.get s id).getD
      { total := 0, tax := 0, items := [] }).items,
      itemConsistent it ∧ TwoDP it.price := by
    cases hg : Store.get s id with
    | none => simp
    | some c0 => simpa using hprior c0 hg
  refine ⟨?_, ?_, ?_⟩
  · intro cat sku qty p s' c hp htw heq
    by_cases hq : qty ≤ 0
    · rw [addItem, if_pos hq] at heq
      simp at heq
    · rw [addItem_ok (by omega) hp, Prod.mk.injEq] at heq
      obtain ⟨hs', hc⟩ := heq
      rw [Except.ok.injEq] at hc
      subst hs'
      subst hc
      refine ⟨Store.get_put_self _ _ _, recompute_consistent ?_⟩
      exact fun it hit => (mergeItem_consistent htw _ hcur it hit).1
  · intro sku qty s' c heq
    by_cases hq : qty < 0
    · rw [updateItem, if_pos hq] at heq
      simp at heq
    · cases hg : Store.get s id with
      | none =>
        rw [updateItem, if_neg hq, hg] at heq
        simp at heq
      | some cur =>
        cases hu : updateList cur.items sku qty with
        | none =>
          have hstep : updateItem s id sku qty = (s, .error .ItemNotInCart) := by
            rw [updateItem, if_neg hq, hg]
            show (match updateList cur.items sku qty with
                  | none => (s, Except.error Err.ItemNotInCart)
                  | some items =>
                    (Store.put s id (recompute items), Except.ok (recompute items))) = _
            rw [hu]
          rw [hstep] at heq
          simp at heq
        | some items =>
          rw [updateItem_ok hq hg hu, Prod.mk.injEq] at heq
          obtain ⟨hs', hc⟩ := heq
          rw [Except.ok.injEq] at hc
          subst hs'
          subst hc
          refine ⟨Store.get_put_self _ _ _, recompute_consistent ?_⟩
          exact fun it hit =>
            (updateList_consistent cur.items items hu (hprior cur hg) it hit).1
  · intro pay s' c htw heq
    obtain ⟨pd, pc, pl⟩ := pay
    cases pd with
    | none =>
      have hstep : addShipping s id ⟨none, pc, pl⟩ =
          (s, .error .ShippingDataMissing) := rfl
      rw [hstep] at heq
      simp at heq
    | some d =>
      cases pc with
      | none =>
        have hstep : addShipping s id ⟨some d, none, pl⟩ =
            (s, .error .ShippingDataMissing) := rfl
        rw [hstep] at heq
        simp at heq
      | some cost =>
        cases pl with
        | none =>
          have hstep : addShipping s id ⟨some d, some cost, none⟩ =
              (s, .error .ShippingDataMissing) := rfl
          rw [hstep] at heq
          simp at heq
        | some loc =>
          have hcost : TwoDP cost := htw cost rfl
          rw [addShipping_ok, Prod.mk.injEq] at heq
          obtain ⟨hs', hc⟩ := heq
          rw [Except.ok.injEq] at hc
          subst hs'
          subst hc
          refine ⟨Store.get_put_self _ _ _, recompute_consistent ?_⟩
          intro it hit
          rcases List.mem_append.mp hit with hmem | hmem
          · exact (hcur it (List.mem_filter.mp hmem).1).1
          · rw [List.mem_singleton] at hmem
            subst hmem
            show computeSubtotal cost 1 = cost * ((1:ℤ) : ℚ)
            rw [computeSubtotal_twoDP hcost]

/-- Witness for C1's amended theorem: the AddItem conjunct at the test
scenario — 2 × TEST-SKU at price 10.00 on an empty store. -/
theorem mutation_preserves_consistency_witness :
    Store.get [("c1", cartA)] "c1" = some cartA ∧ cartConsistent cartA :=
  (mutation_preserves_consistency [] "c1"
      (by intro c hc; simp [Store.get] at hc)).1 cat0 "TEST-SKU" 2
    { sku := "TEST-SKU", name := "Test Product", price := 10, instock := 100 }
    [("c1", cartA)] cartA (by simp [cat0]) ⟨1000, by norm_num⟩
    (by norm_num [addItem, cat0, Store.get, Store.put, Store.del, mergeItem,
      recompute, calcTotal, calcTax, computeSubtotal, round2, Rat.floor_def', cartA])

end RoboshopCart
